import Mathlib

/-!
Shallow embedding of the nfsd collector (`collector/nfsd_linux.go`).

The collector reads one NFS-server statistics snapshot per cycle from
procfs and pushes a fixed sequence of constant Prometheus metrics on a
channel.  The embedding models:

* the snapshot record (`procfs/nfs` sub-records, shapes per spec §3;
  numeric fields are non-negative machine integers, carried here as `Nat`
  — the Go code converts them with `float64(...)` and the spec assumes
  all values fit, so the conversion is value-preserving and the integer
  stands for the emitted floating-point value);
* Prometheus descriptors and constant metrics (`NewDesc`,
  `MustNewConstMetric`); the panic branch of `MustNewConstMetric`
  (label-value count mismatch) is embedded as `Option.none`;
* the six per-group emission helpers and `Update`.  A channel send
  `ch <- m` becomes one element of the produced list, in program order;
  `Update` returns the pair (samples sent on the channel, returned
  error), with `none` standing for Go's `nil` error.
-/

namespace Collector

/-- Reply-cache sub-record of the snapshot (`nfs.ReplyCache`): counters
`Hits`, `Misses`, `NoCache`. -/
structure ReplyCache where
  Hits : Nat
  Misses : Nat
  NoCache : Nat
deriving DecidableEq

/-- File-handles sub-record of the snapshot (`nfs.FileHandles`): counter
`Stale`; the remaining fields are defined by the source format but are
intentionally never emitted (spec §3, source line 109 note). -/
structure FileHandles where
  Stale : Nat
  TotalLookups : Nat
  AnonLookups : Nat
  DirNoCache : Nat
  NoDirNoCache : Nat
deriving DecidableEq

/-- Input/output sub-record of the snapshot (`nfs.InputOutput`): byte
counters `Read`, `Write`. -/
structure InputOutput where
  Read : Nat
  Write : Nat
deriving DecidableEq

/-- Threads sub-record of the snapshot (`nfs.Threads`): gauge `Threads`. -/
structure Threads where
  Threads : Nat
deriving DecidableEq

/-- Read-ahead-cache sub-record of the snapshot (`nfs.ReadAheadCache`):
gauge `CacheSize` (blocks) and counter `NotFound`. -/
structure ReadAheadCache where
  CacheSize : Nat
  NotFound : Nat
deriving DecidableEq

/-- Network sub-record of the snapshot (`nfs.Network`): counters
`UDPCount`, `TCPCount`, `TCPConnect`; `NetCount` is defined by the source
format but never emitted. -/
structure Network where
  NetCount : Nat
  UDPCount : Nat
  TCPCount : Nat
  TCPConnect : Nat
deriving DecidableEq

/-- One decoded statistics snapshot (`nfs.ServerRPCStats`, restricted to
the six sub-records the collector reads; spec §3 `StatSnapshot`). -/
structure NFSdStats where
  ReplyCache : ReplyCache
  FileHandles : FileHandles
  InputOutput : InputOutput
  Threads : Threads
  ReadAheadCache : ReadAheadCache
  Network : Network
deriving DecidableEq

/-- A metric descriptor as built by `prometheus.NewDesc`: fully-qualified
name, help text and the declared variable-label names.  The const-labels
argument is `nil` at every call site in this collector and is omitted. -/
structure Desc where
  fqName : String
  help : String
  variableLabels : List String
deriving DecidableEq

/-- Prometheus value type of a constant metric: `prometheus.CounterValue`
or `prometheus.GaugeValue`. -/
inductive ValueType where
  | counterValue
  | gaugeValue
deriving DecidableEq

/-- One constant metric sample as built by `prometheus.MustNewConstMetric`
and sent on the channel: its descriptor, value type, value and the
variable-label values attached at construction. -/
structure Metric where
  desc : Desc
  valueType : ValueType
  value : Nat
  labelValues : List String
deriving DecidableEq

/-- `prometheus.BuildFQName`: joins the non-empty ones among namespace,
subsystem and name with `_`; empty when the name is empty. -/
def BuildFQName (ns subsystem name : String) : String :=
  if name = "" then ""
  else if ns ≠ "" ∧ subsystem ≠ "" then ns ++ "_" ++ subsystem ++ "_" ++ name
  else if ns ≠ "" then ns ++ "_" ++ name
  else if subsystem ≠ "" then subsystem ++ "_" ++ name
  else name

/-- `prometheus.NewDesc` restricted to the shape used in this file: every
call passes `nil` const labels, and `nil` variable labels are written
`[]`. -/
def NewDesc (fqName help : String) (variableLabels : List String) : Desc :=
  { fqName := fqName, help := help, variableLabels := variableLabels }

/-- The `nfsdSubsystem` constant of the collector. -/
def nfsdSubsystem : String := "nfsd"

/-- `prometheus.MustNewConstMetric`: builds a constant metric.  The
underlying `NewConstMetric` fails — and the `Must` wrapper panics — when
the number of supplied label values differs from the number of variable
labels declared by the descriptor; that panic branch is `none` here. -/
def MustNewConstMetric (desc : Desc) (vt : ValueType) (value : Nat)
    (labelValues : List String) : Option Metric :=
  if labelValues.length = desc.variableLabels.length then
    some { desc := desc, valueType := vt, value := value, labelValues := labelValues }
  else
    none

/-- `updateNFSdReplyCacheStats`: the three reply-cache counters, in
program order of the channel sends.  The `ns` argument is the collector
package's externally configured `namespace` constant (spec §3). -/
def updateNFSdReplyCacheStats (ns : String) (s : ReplyCache) : List (Option Metric) :=
  [ MustNewConstMetric
      (NewDesc (BuildFQName ns nfsdSubsystem "reply_cache_hits_total")
        "NFSd Reply Cache client did not receive a reply and decided to re-transmit its request and the reply was cached. (bad)."
        [])
      ValueType.counterValue s.Hits []
  , MustNewConstMetric
      (NewDesc (BuildFQName ns nfsdSubsystem "reply_cache_misses_total")
        "NFSd Reply Cache an operation that requires caching (idempotent)."
        [])
      ValueType.counterValue s.Misses []
  , MustNewConstMetric
      (NewDesc (BuildFQName ns nfsdSubsystem "reply_cache_nocache_total")
        "NFSd Reply Cache non-idempotent operations (rename/delete/…)."
        [])
      ValueType.counterValue s.NoCache []
  ]

/-- `updateNFSdFileHandlesStats`: the single stale-file-handles counter;
the other `FileHandles` fields are unused (source line 109 note). -/
def updateNFSdFileHandlesStats (ns : String) (s : FileHandles) : List (Option Metric) :=
  [ MustNewConstMetric
      (NewDesc (BuildFQName ns nfsdSubsystem "file_handles_stale_total")
        "NFSd stale file handles"
        [])
      ValueType.counterValue s.Stale []
  ]

/-- `updateNFSdInputOutputStats`: bytes read and written. -/
def updateNFSdInputOutputStats (ns : String) (s : InputOutput) : List (Option Metric) :=
  [ MustNewConstMetric
      (NewDesc (BuildFQName ns nfsdSubsystem "disk_bytes_read_total")
        "NFSd bytes read"
        [])
      ValueType.counterValue s.Read []
  , MustNewConstMetric
      (NewDesc (BuildFQName ns nfsdSubsystem "disk_bytes_written_total")
        "NFSd bytes written"
        [])
      ValueType.counterValue s.Write []
  ]

/-- `updateNFSdThreadsStats`: the kernel-server-threads gauge. -/
def updateNFSdThreadsStats (ns : String) (s : Threads) : List (Option Metric) :=
  [ MustNewConstMetric
      (NewDesc (BuildFQName ns nfsdSubsystem "server_threads")
        "NFSd how many kernel threads are running"
        [])
      ValueType.gaugeValue s.Threads []
  ]

/-- `updateNFSdReadAheadCacheStats`: read-ahead-cache size gauge and
not-found counter.  The help strings are transcribed verbatim from the
source, where both metrics carry the same text. -/
def updateNFSdReadAheadCacheStats (ns : String) (s : ReadAheadCache) : List (Option Metric) :=
  [ MustNewConstMetric
      (NewDesc (BuildFQName ns nfsdSubsystem "read_ahead_cache_size_blocks")
        "NFSd how large the read ahead cache in blocks"
        [])
      ValueType.gaugeValue s.CacheSize []
  , MustNewConstMetric
      (NewDesc (BuildFQName ns nfsdSubsystem "read_ahead_cache_not_found_total")
        "NFSd how large the read ahead cache in blocks"
        [])
      ValueType.counterValue s.NotFound []
  ]

/-- `updateNFSdNetworkStats`: both packet counters are built from the one
`packetDesc` descriptor (variable label `proto`), then the TCP-connections
counter. -/
def updateNFSdNetworkStats (ns : String) (s : Network) : List (Option Metric) :=
  let packetDesc : Desc :=
    NewDesc (BuildFQName ns nfsdSubsystem "packets_total")
      "NFSd how many network packets have been sent/recieved"
      ["proto"]
  [ MustNewConstMetric packetDesc ValueType.counterValue s.UDPCount ["udp"]
  , MustNewConstMetric packetDesc ValueType.counterValue s.TCPCount ["tcp"]
  , MustNewConstMetric
      (NewDesc (BuildFQName ns nfsdSubsystem "connections_total")
        "NFSd how many TCP connections have been made"
        [])
      ValueType.counterValue s.TCPConnect []
  ]

/-- Body of `Update` after a successful acquisition: the six group helpers
called in source order (lines 57–62), their channel sends concatenated in
program order. -/
def updateMetrics (ns : String) (stats : NFSdStats) : List (Option Metric) :=
  updateNFSdReplyCacheStats ns stats.ReplyCache
    ++ updateNFSdFileHandlesStats ns stats.FileHandles
    ++ updateNFSdInputOutputStats ns stats.InputOutput
    ++ updateNFSdThreadsStats ns stats.Threads
    ++ updateNFSdReadAheadCacheStats ns stats.ReadAheadCache
    ++ updateNFSdNetworkStats ns stats.Network

/-- `nfsdCollector.Update`.  The argument `acq` is the result of the
external accessor `c.fs.NFSdServerRPCStats()` (out of scope, spec §4.1):
either the decoded snapshot or the acquisition error.  The result is the
pair (samples sent on the channel, returned error); `none` is Go's `nil`
error, and an acquisition failure yields the wrapped error before any
send. -/
def Update (ns : String) (acq : Except String NFSdStats) :
    List (Option Metric) × Option String :=
  match acq with
  | Except.error err => ([], some ("failed to retrieve nfsd stats: " ++ err))
  | Except.ok stats => (updateMetrics ns stats, none)

/-- The metrics actually delivered to the sink in one successful cycle:
every channel send of `updateMetrics` that constructed a metric (all of
them do, see `const_metric_labels_consistent`). -/
def emittedSamples (ns : String) (stats : NFSdStats) : List Metric :=
  (updateMetrics ns stats).reduceOption

/-- The end-to-end example snapshot of spec §8 (unused source-format
fields set to arbitrary values). -/
def exampleSnap : NFSdStats :=
  { ReplyCache := { Hits := 10, Misses := 2, NoCache := 1 }
  , FileHandles := { Stale := 0, TotalLookups := 25, AnonLookups := 3
                   , DirNoCache := 4, NoDirNoCache := 5 }
  , InputOutput := { Read := 1000, Write := 500 }
  , Threads := { Threads := 8 }
  , ReadAheadCache := { CacheSize := 32, NotFound := 3 }
  , Network := { NetCount := 157, UDPCount := 100, TCPCount := 50, TCPConnect := 7 } }

/-- A second snapshot with the same field values as `exampleSnap`. -/
def exampleSnapCopy : NFSdStats :=
  { ReplyCache := { Hits := 10, Misses := 2, NoCache := 1 }
  , FileHandles := { Stale := 0, TotalLookups := 25, AnonLookups := 3
                   , DirNoCache := 4, NoDirNoCache := 5 }
  , InputOutput := { Read := 1000, Write := 500 }
  , Threads := { Threads := 8 }
  , ReadAheadCache := { CacheSize := 32, NotFound := 3 }
  , Network := { NetCount := 157, UDPCount := 100, TCPCount := 50, TCPConnect := 7 } }

/-- A snapshot agreeing with `exampleSnap` on every emitted field except
`Threads.Threads` (4 → 6 in spirit of spec §8: here 8 → 6), and differing
additionally in the never-emitted `FileHandles` fields. -/
def exampleSnapThreads : NFSdStats :=
  { ReplyCache := { Hits := 10, Misses := 2, NoCache := 1 }
  , FileHandles := { Stale := 0, TotalLookups := 99, AnonLookups := 98
                   , DirNoCache := 97, NoDirNoCache := 96 }
  , InputOutput := { Read := 1000, Write := 500 }
  , Threads := { Threads := 6 }
  , ReadAheadCache := { CacheSize := 32, NotFound := 3 }
  , Network := { NetCount := 157, UDPCount := 100, TCPCount := 50, TCPConnect := 7 } }

/-- Appending distinct strings to one common prefix yields distinct
strings. -/
theorem string_append_right_ne (s a b : String) (h : a ≠ b) : s ++ a ≠ s ++ b := by
  intro he
  apply h
  have hd : (s ++ a).data = (s ++ b).data := congrArg String.data he
  simp [String.data_append] at hd
  exact String.ext hd

/-- `BuildFQName` is injective in the metric-name suffix (for non-empty
suffixes), whatever the namespace and subsystem are. -/
theorem buildFQName_ne (ns sub a b : String) (ha : a ≠ "") (hb : b ≠ "")
    (hne : a ≠ b) : BuildFQName ns sub a ≠ BuildFQName ns sub b := by
  unfold BuildFQName
  rw [if_neg ha, if_neg hb]
  by_cases h₁ : ns ≠ "" ∧ sub ≠ ""
  · rw [if_pos h₁, if_pos h₁]
    exact string_append_right_ne _ _ _ hne
  · rw [if_neg h₁, if_neg h₁]
    by_cases h₂ : ns ≠ ""
    · rw [if_pos h₂, if_pos h₂]
      exact string_append_right_ne _ _ _ hne
    · rw [if_neg h₂, if_neg h₂]
      by_cases h₃ : sub ≠ ""
      · rw [if_pos h₃, if_pos h₃]
        exact string_append_right_ne _ _ _ hne
      · rw [if_neg h₃, if_neg h₃]
        exact hne

/-- Closed form of one successful cycle: the twelve channel sends, in
program order, with their descriptors spelled out. -/
theorem emittedSamples_closed_form (ns : String) (s : NFSdStats) :
    emittedSamples ns s =
      [ { desc := NewDesc (BuildFQName ns nfsdSubsystem "reply_cache_hits_total")
            "NFSd Reply Cache client did not receive a reply and decided to re-transmit its request and the reply was cached. (bad)."
            []
        , valueType := ValueType.counterValue
        , value := s.ReplyCache.Hits, labelValues := [] }
      , { desc := NewDesc (BuildFQName ns nfsdSubsystem "reply_cache_misses_total")
            "NFSd Reply Cache an operation that requires caching (idempotent)."
            []
        , valueType := ValueType.counterValue
        , value := s.ReplyCache.Misses, labelValues := [] }
      , { desc := NewDesc (BuildFQName ns nfsdSubsystem "reply_cache_nocache_total")
            "NFSd Reply Cache non-idempotent operations (rename/delete/…)."
            []
        , valueType := ValueType.counterValue
        , value := s.ReplyCache.NoCache, labelValues := [] }
      , { desc := NewDesc (BuildFQName ns nfsdSubsystem "file_handles_stale_total")
            "NFSd stale file handles"
            []
        , valueType := ValueType.counterValue
        , value := s.FileHandles.Stale, labelValues := [] }
      , { desc := NewDesc (BuildFQName ns nfsdSubsystem "disk_bytes_read_total")
            "NFSd bytes read"
            []
        , valueType := ValueType.counterValue
        , value := s.InputOutput.Read, labelValues := [] }
      , { desc := NewDesc (BuildFQName ns nfsdSubsystem "disk_bytes_written_total")
            "NFSd bytes written"
            []
        , valueType := ValueType.counterValue
        , value := s.InputOutput.Write, labelValues := [] }
      , { desc := NewDesc (BuildFQName ns nfsdSubsystem "server_threads")
            "NFSd how many kernel threads are running"
            []
        , valueType := ValueType.gaugeValue
        , value := s.Threads.Threads, labelValues := [] }
      , { desc := NewDesc (BuildFQName ns nfsdSubsystem "read_ahead_cache_size_blocks")
            "NFSd how large the read ahead cache in blocks"
            []
        , valueType := ValueType.gaugeValue
        , value := s.ReadAheadCache.CacheSize, labelValues := [] }
      , { desc := NewDesc (BuildFQName ns nfsdSubsystem "read_ahead_cache_not_found_total")
            "NFSd how large the read ahead cache in blocks"
            []
        , valueType := ValueType.counterValue
        , value := s.ReadAheadCache.NotFound, labelValues := [] }
      , { desc := NewDesc (BuildFQName ns nfsdSubsystem "packets_total")
            "NFSd how many network packets have been sent/recieved"
            ["proto"]
        , valueType := ValueType.counterValue
        , value := s.Network.UDPCount, labelValues := ["udp"] }
      , { desc := NewDesc (BuildFQName ns nfsdSubsystem "packets_total")
            "NFSd how many network packets have been sent/recieved"
            ["proto"]
        , valueType := ValueType.counterValue
        , value := s.Network.TCPCount, labelValues := ["tcp"] }
      , { desc := NewDesc (BuildFQName ns nfsdSubsystem "connections_total")
            "NFSd how many TCP connections have been made"
            []
        , valueType := ValueType.counterValue
        , value := s.Network.TCPConnect, labelValues := [] }
      ] := rfl

/-- C1, counterexample: on the spec §8 example snapshot (namespace
`node`) the collector delivers twelve samples, not eleven — `packets_total`
is sent twice on top of the ten other metric names. -/
theorem update_eleven_samples_refuted :
    (emittedSamples "node" exampleSnap).length ≠ 11 := by decide

/-- C1 (amended): for every successfully acquired snapshot, `Update`
emits exactly twelve samples, and the list of (name, kind, label-shape)
triples of those samples is fixed — the eleven distinct rows of the table
in spec §4.2, with the `packets_total` row occurring twice — independent
of the snapshot's numeric field values; no sample is omitted or added
based on input. -/
theorem update_emits_twelve_fixed_shape (ns : String) (s : NFSdStats) :
    (emittedSamples ns s).length = 12 ∧
    (emittedSamples ns s).map
        (fun m => (m.desc.fqName, m.valueType, m.desc.variableLabels)) =
      [ (BuildFQName ns nfsdSubsystem "reply_cache_hits_total", ValueType.counterValue, [])
      , (BuildFQName ns nfsdSubsystem "reply_cache_misses_total", ValueType.counterValue, [])
      , (BuildFQName ns nfsdSubsystem "reply_cache_nocache_total", ValueType.counterValue, [])
      , (BuildFQName ns nfsdSubsystem "file_handles_stale_total", ValueType.counterValue, [])
      , (BuildFQName ns nfsdSubsystem "disk_bytes_read_total", ValueType.counterValue, [])
      , (BuildFQName ns nfsdSubsystem "disk_bytes_written_total", ValueType.counterValue, [])
      , (BuildFQName ns nfsdSubsystem "server_threads", ValueType.gaugeValue, [])
      , (BuildFQName ns nfsdSubsystem "read_ahead_cache_size_blocks", ValueType.gaugeValue, [])
      , (BuildFQName ns nfsdSubsystem "read_ahead_cache_not_found_total", ValueType.counterValue, [])
      , (BuildFQName ns nfsdSubsystem "packets_total", ValueType.counterValue, ["proto"])
      , (BuildFQName ns nfsdSubsystem "packets_total", ValueType.counterValue, ["proto"])
      , (BuildFQName ns nfsdSubsystem "connections_total", ValueType.counterValue, [])
      ] := ⟨rfl, rfl⟩

/-- C2: every emitted sample's value is the corresponding snapshot field
unchanged (identity mapping) — `ReplyCache.Hits` under
`reply_cache_hits_total`, `Threads.Threads` under `server_threads`,
`ReadAheadCache.CacheSize` under `read_ahead_cache_size_blocks`, and so
on for every emitted sample. -/
theorem sample_values_identity (ns : String) (s : NFSdStats) :
    (emittedSamples ns s).map (fun m => (m.desc.fqName, m.labelValues, m.value)) =
      [ (BuildFQName ns nfsdSubsystem "reply_cache_hits_total", [], s.ReplyCache.Hits)
      , (BuildFQName ns nfsdSubsystem "reply_cache_misses_total", [], s.ReplyCache.Misses)
      , (BuildFQName ns nfsdSubsystem "reply_cache_nocache_total", [], s.ReplyCache.NoCache)
      , (BuildFQName ns nfsdSubsystem "file_handles_stale_total", [], s.FileHandles.Stale)
      , (BuildFQName ns nfsdSubsystem "disk_bytes_read_total", [], s.InputOutput.Read)
      , (BuildFQName ns nfsdSubsystem "disk_bytes_written_total", [], s.InputOutput.Write)
      , (BuildFQName ns nfsdSubsystem "server_threads", [], s.Threads.Threads)
      , (BuildFQName ns nfsdSubsystem "read_ahead_cache_size_blocks", [], s.ReadAheadCache.CacheSize)
      , (BuildFQName ns nfsdSubsystem "read_ahead_cache_not_found_total", [], s.ReadAheadCache.NotFound)
      , (BuildFQName ns nfsdSubsystem "packets_total", ["udp"], s.Network.UDPCount)
      , (BuildFQName ns nfsdSubsystem "packets_total", ["tcp"], s.Network.TCPCount)
      , (BuildFQName ns nfsdSubsystem "connections_total", [], s.Network.TCPConnect)
      ] := rfl

/-- C4: a failed acquisition makes `Update` return the wrapped
`StatsUnavailable` error with zero samples sent on the channel, and a
successful acquisition makes `Update` return `nil` (here `none`). -/
theorem update_failure_no_samples (ns err : String) (s : NFSdStats) :
    Update ns (Except.error err) =
      ([], some ("failed to retrieve nfsd stats: " ++ err)) ∧
    (Update ns (Except.ok s)).2 = none := ⟨rfl, rfl⟩

/-- C5: within one successful cycle the samples are delivered to the sink
in the fixed group order of spec §4.2 — reply cache (hits, misses,
nocache), file handles (stale), input/output (read, written), threads,
read-ahead cache (size, not found), network (packets udp, packets tcp,
connections). -/
theorem update_sample_order (ns : String) (s : NFSdStats) :
    (Update ns (Except.ok s)).1.reduceOption.map
        (fun m => (m.desc.fqName, m.labelValues)) =
      [ (BuildFQName ns nfsdSubsystem "reply_cache_hits_total", [])
      , (BuildFQName ns nfsdSubsystem "reply_cache_misses_total", [])
      , (BuildFQName ns nfsdSubsystem "reply_cache_nocache_total", [])
      , (BuildFQName ns nfsdSubsystem "file_handles_stale_total", [])
      , (BuildFQName ns nfsdSubsystem "disk_bytes_read_total", [])
      , (BuildFQName ns nfsdSubsystem "disk_bytes_written_total", [])
      , (BuildFQName ns nfsdSubsystem "server_threads", [])
      , (BuildFQName ns nfsdSubsystem "read_ahead_cache_size_blocks", [])
      , (BuildFQName ns nfsdSubsystem "read_ahead_cache_not_found_total", [])
      , (BuildFQName ns nfsdSubsystem "packets_total", ["udp"])
      , (BuildFQName ns nfsdSubsystem "packets_total", ["tcp"])
      , (BuildFQName ns nfsdSubsystem "connections_total", [])
      ] := rfl

/-- C3: `packets_total` is the name of exactly two samples per cycle —
one with label value `udp` carrying `Network.UDPCount` and one with label
value `tcp` carrying `Network.TCPCount`, in that assignment — and those
two samples are the only ones carrying any label value at all. -/
theorem packets_total_twice_udp_tcp (ns : String) (s : NFSdStats) :
    (emittedSamples ns s).countP
        (fun m => decide (m.desc.fqName = BuildFQName ns nfsdSubsystem "packets_total")) = 2 ∧
    (emittedSamples ns s).filter (fun m => !m.labelValues.isEmpty) =
      [ { desc := NewDesc (BuildFQName ns nfsdSubsystem "packets_total")
            "NFSd how many network packets have been sent/recieved"
            ["proto"]
        , valueType := ValueType.counterValue
        , value := s.Network.UDPCount, labelValues := ["udp"] }
      , { desc := NewDesc (BuildFQName ns nfsdSubsystem "packets_total")
            "NFSd how many network packets have been sent/recieved"
            ["proto"]
        , valueType := ValueType.counterValue
        , value := s.Network.TCPCount, labelValues := ["tcp"] } ] := by
  constructor
  · have q₁ := buildFQName_ne ns nfsdSubsystem "reply_cache_hits_total"
      "packets_total" (by decide) (by decide) (by decide)
    have q₂ := buildFQName_ne ns nfsdSubsystem "reply_cache_misses_total"
      "packets_total" (by decide) (by decide) (by decide)
    have q₃ := buildFQName_ne ns nfsdSubsystem "reply_cache_nocache_total"
      "packets_total" (by decide) (by decide) (by decide)
    have q₄ := buildFQName_ne ns nfsdSubsystem "file_handles_stale_total"
      "packets_total" (by decide) (by decide) (by decide)
    have q₅ := buildFQName_ne ns nfsdSubsystem "disk_bytes_read_total"
      "packets_total" (by decide) (by decide) (by decide)
    have q₆ := buildFQName_ne ns nfsdSubsystem "disk_bytes_written_total"
      "packets_total" (by decide) (by decide) (by decide)
    have q₇ := buildFQName_ne ns nfsdSubsystem "server_threads"
      "packets_total" (by decide) (by decide) (by decide)
    have q₈ := buildFQName_ne ns nfsdSubsystem "read_ahead_cache_size_blocks"
      "packets_total" (by decide) (by decide) (by decide)
    have q₉ := buildFQName_ne ns nfsdSubsystem "read_ahead_cache_not_found_total"
      "packets_total" (by decide) (by decide) (by decide)
    have q₁₀ := buildFQName_ne ns nfsdSubsystem "connections_total"
      "packets_total" (by decide) (by decide) (by decide)
    rw [emittedSamples_closed_form]
    simp [List.countP_cons, NewDesc, q₁, q₂, q₃, q₄, q₅, q₆, q₇, q₈, q₉, q₁₀]
  · rfl

/-- C8: the two `packets_total` samples of one cycle carry one and the
same descriptor (name, help and label schema), while their values are
taken independently from `Network.UDPCount` and `Network.TCPCount`. -/
theorem packets_shared_descriptor (ns : String) (s : NFSdStats) :
    ∃ udpm tcpm : Metric,
      (emittedSamples ns s)[9]? = some udpm ∧
      (emittedSamples ns s)[10]? = some tcpm ∧
      udpm.desc = tcpm.desc ∧
      udpm.desc.fqName = BuildFQName ns nfsdSubsystem "packets_total" ∧
      udpm.labelValues = ["udp"] ∧ tcpm.labelValues = ["tcp"] ∧
      udpm.value = s.Network.UDPCount ∧ tcpm.value = s.Network.TCPCount :=
  ⟨_, _, rfl, rfl, rfl, rfl, rfl, rfl, rfl, rfl⟩

/-- C9: no emission can panic — every `MustNewConstMetric` call supplies
exactly as many variable-label values as its descriptor declares, so every
channel send carries a constructed metric (`some`) and the panic branch is
unreachable. -/
theorem const_metric_labels_consistent (ns : String) (s : NFSdStats) :
    (updateMetrics ns s).all Option.isSome = true ∧
    updateMetrics ns s = (emittedSamples ns s).map some ∧
    (emittedSamples ns s).all
        (fun m => m.labelValues.length == m.desc.variableLabels.length) = true :=
  ⟨rfl, rfl, rfl⟩

/-- C6: each delivered sample's value depends only on its one snapshot
field — when two snapshots agree on every emitted field except possibly
`Threads.Threads` (and on none of the never-emitted `FileHandles` fields
need they agree), the two sample lists agree at every position except the
`server_threads` position 6, whose sample keeps its descriptor and carries
exactly the respective `Threads.Threads` value. -/
theorem update_field_noninterference (ns : String) (s₁ s₂ : NFSdStats)
    (hrc : s₁.ReplyCache = s₂.ReplyCache)
    (hfh : s₁.FileHandles.Stale = s₂.FileHandles.Stale)
    (hio : s₁.InputOutput = s₂.InputOutput)
    (hrac : s₁.ReadAheadCache = s₂.ReadAheadCache)
    (hnet : s₁.Network = s₂.Network) :
    (∀ i : Fin 12, i.val ≠ 6 →
        (emittedSamples ns s₁)[i.val]? = (emittedSamples ns s₂)[i.val]?) ∧
    ((emittedSamples ns s₁)[6]?).map Metric.value = some s₁.Threads.Threads ∧
    ((emittedSamples ns s₂)[6]?).map Metric.value = some s₂.Threads.Threads ∧
    ((emittedSamples ns s₁)[6]?).map Metric.desc =
      ((emittedSamples ns s₂)[6]?).map Metric.desc := by
  refine ⟨?_, rfl, rfl, rfl⟩
  intro i hi
  rw [emittedSamples_closed_form, emittedSamples_closed_form]
  fin_cases i <;> simp_all [NewDesc]

/-- C6 witness: concrete snapshots differing in `Threads.Threads` (8
versus 6) and in the never-emitted `FileHandles` fields. -/
theorem update_field_noninterference_witness :
    exampleSnap.ReplyCache = exampleSnapThreads.ReplyCache ∧
    exampleSnap.FileHandles.Stale = exampleSnapThreads.FileHandles.Stale ∧
    exampleSnap.InputOutput = exampleSnapThreads.InputOutput ∧
    exampleSnap.ReadAheadCache = exampleSnapThreads.ReadAheadCache ∧
    exampleSnap.Network = exampleSnapThreads.Network ∧
    ((∀ i : Fin 12, i.val ≠ 6 →
        (emittedSamples "node" exampleSnap)[i.val]? =
          (emittedSamples "node" exampleSnapThreads)[i.val]?) ∧
      ((emittedSamples "node" exampleSnap)[6]?).map Metric.value =
        some exampleSnap.Threads.Threads ∧
      ((emittedSamples "node" exampleSnapThreads)[6]?).map Metric.value =
        some exampleSnapThreads.Threads.Threads ∧
      ((emittedSamples "node" exampleSnap)[6]?).map Metric.desc =
        ((emittedSamples "node" exampleSnapThreads)[6]?).map Metric.desc) :=
  ⟨rfl, rfl, rfl, rfl, rfl,
    update_field_noninterference "node" exampleSnap exampleSnapThreads rfl rfl rfl rfl rfl⟩

/-- C7: `Update` is deterministic in the snapshot's field values — two
snapshots with equal fields yield identical sample sequences (names,
kinds, labels and values alike) and identical results. -/
theorem update_deterministic (ns : String) (s₁ s₂ : NFSdStats)
    (h₁ : s₁.ReplyCache.Hits = s₂.ReplyCache.Hits)
    (h₂ : s₁.ReplyCache.Misses = s₂.ReplyCache.Misses)
    (h₃ : s₁.ReplyCache.NoCache = s₂.ReplyCache.NoCache)
    (h₄ : s₁.FileHandles.Stale = s₂.FileHandles.Stale)
    (h₅ : s₁.FileHandles.TotalLookups = s₂.FileHandles.TotalLookups)
    (h₆ : s₁.FileHandles.AnonLookups = s₂.FileHandles.AnonLookups)
    (h₇ : s₁.FileHandles.DirNoCache = s₂.FileHandles.DirNoCache)
    (h₈ : s₁.FileHandles.NoDirNoCache = s₂.FileHandles.NoDirNoCache)
    (h₉ : s₁.InputOutput.Read = s₂.InputOutput.Read)
    (h₁₀ : s₁.InputOutput.Write = s₂.InputOutput.Write)
    (h₁₁ : s₁.Threads.Threads = s₂.Threads.Threads)
    (h₁₂ : s₁.ReadAheadCache.CacheSize = s₂.ReadAheadCache.CacheSize)
    (h₁₃ : s₁.ReadAheadCache.NotFound = s₂.ReadAheadCache.NotFound)
    (h₁₄ : s₁.Network.NetCount = s₂.Network.NetCount)
    (h₁₅ : s₁.Network.UDPCount = s₂.Network.UDPCount)
    (h₁₆ : s₁.Network.TCPCount = s₂.Network.TCPCount)
    (h₁₇ : s₁.Network.TCPConnect = s₂.Network.TCPConnect) :
    Update ns (Except.ok s₁) = Update ns (Except.ok s₂) := by
  obtain ⟨⟨a₁, a₂, a₃⟩, ⟨b₁, b₂, b₃, b₄, b₅⟩, ⟨c₁, c₂⟩, ⟨d₁⟩, ⟨e₁, e₂⟩,
    ⟨f₁, f₂, f₃, f₄⟩⟩ := s₁
  obtain ⟨⟨a₁', a₂', a₃'⟩, ⟨b₁', b₂', b₃', b₄', b₅'⟩, ⟨c₁', c₂'⟩, ⟨d₁'⟩,
    ⟨e₁', e₂'⟩, ⟨f₁', f₂', f₃', f₄'⟩⟩ := s₂
  simp_all

/-- C7 witness: two snapshot records with equal field values give
identical `Update` results. -/
theorem update_deterministic_witness :
    Update "node" (Except.ok exampleSnap) = Update "node" (Except.ok exampleSnapCopy) :=
  update_deterministic "node" exampleSnap exampleSnapCopy rfl rfl rfl rfl rfl rfl
    rfl rfl rfl rfl rfl rfl rfl rfl rfl rfl rfl

/-- C10: the help string of `read_ahead_cache_not_found_total` is the
constant `NFSd how large the read ahead cache in blocks`, character for
character the same text as the help string of
`read_ahead_cache_size_blocks`, for every snapshot. -/
theorem read_ahead_help_duplicated (ns : String) (s : NFSdStats) :
    ((emittedSamples ns s)[8]?).map (fun m => (m.desc.fqName, m.desc.help)) =
      some (BuildFQName ns nfsdSubsystem "read_ahead_cache_not_found_total",
        "NFSd how large the read ahead cache in blocks") ∧
    ((emittedSamples ns s)[7]?).map (fun m => (m.desc.fqName, m.desc.help)) =
      some (BuildFQName ns nfsdSubsystem "read_ahead_cache_size_blocks",
        "NFSd how large the read ahead cache in blocks") := ⟨rfl, rfl⟩

end Collector
